import Mathlib

/-!
Verification of the `simcharts` repository: shallow embedding of
`seacharts/seacharts.py` (the chart-parsing `ENC` facade) and
`simcharts/enc/enc.py` (the simulation `ENC` node), together with proofs
about the claims of the specification.

Modelling conventions:
* Python strings are `List Char`; `str.capitalize` is modelled with Lean's
  `Char.toUpper` / `Char.toLower` (which agree with Python on ASCII).
* Python exceptions are an explicit error type `PyErr`, and fallible code
  returns `Except PyErr _`.
* Side effects on external collaborators (the chart `Parser`, the display)
  are recorded as explicit traces, so that statements about "what was passed
  to the parser" or "which display calls happened" can be made.
* Numbers flowing through the code unmodified (coordinates, vessel states)
  are modelled as `Int`; none of the embedded code does arithmetic on them
  except the bounding-box sum, which is exact integer addition in the
  source's intended use.
-/

/-- A Python string, as a list of characters. -/
abbrev PyStr := List Char

/-- The Python exceptions that the embedded code can raise or propagate. -/
inductive PyErr where
  | typeError (msg : PyStr)
  | keyError (key : PyStr)
  | attributeError (msg : PyStr)
  | indexError
deriving DecidableEq, Repr

/-- Python `str.capitalize`: first character uppercased, all remaining
characters lowercased; the empty string is unchanged.  This is exactly what
`item.capitalize()` does in `ENC.__getitem__` of `seacharts/seacharts.py`. -/
def pyCapitalize : PyStr → PyStr
  | [] => []
  | c :: cs => c.toUpper :: cs.map Char.toLower

deriving instance DecidableEq for Except

/-- Lookup in a Python dict modelled as an association list (first match). -/
def dictLookup {β : Type} (k : PyStr) : List (PyStr × β) → Option β
  | [] => none
  | (k', v) :: rest => if k = k' then some v else dictLookup k rest

namespace Seacharts

/-- A Python value passed as a constructor argument of the chart `ENC`:
either a tuple (of numbers, the intended use) or some non-tuple value. -/
inductive PyArg where
  | tuple (xs : List Int)
  | nonTuple
deriving DecidableEq, Repr

/-- `isinstance(x, tuple) and len(x) == 2`, the test performed on both the
`origin` and the `window_size` argument in `ENC.__init__`. -/
def isTuple2 : PyArg → Bool
  | .tuple xs => xs.length == 2
  | .nonTuple => false

/-- The three layer classes of `ENC._layers = (Ocean, Surface, Details)`. -/
inductive Layer where
  | ocean
  | surface
  | details
deriving DecidableEq, Repr

/-- `x.__name__` for each layer class. -/
def layerName : Layer → PyStr
  | .ocean => 'O' :: 'c' :: 'e' :: 'a' :: 'n' :: []
  | .surface => 'S' :: 'u' :: 'r' :: 'f' :: 'a' :: 'c' :: 'e' :: []
  | .details => 'D' :: 'e' :: 't' :: 'a' :: 'i' :: 'l' :: 's' :: []

/-- `self.layers = {x.__name__: x(self.parser.load) for x in self._layers}`:
the fixed dictionary from class names to instantiated layers. -/
def layersDict : List (PyStr × Layer) :=
  [(layerName .ocean, .ocean), (layerName .surface, .surface),
   (layerName .details, .details)]

/-- The state of a successfully constructed chart `ENC` object. -/
structure SeaEnc where
  origin : Int × Int
  window_size : Int × Int
deriving DecidableEq, Repr

/-- Field names assigned by `__init__`, in Python attribute-name form. -/
def originField : PyStr := 'o' :: 'r' :: 'i' :: 'g' :: 'i' :: 'n' :: []

/-- The `window_size` attribute name. -/
def windowSizeField : PyStr :=
  'w' :: 'i' :: 'n' :: 'd' :: 'o' :: 'w' :: '_' :: 's' :: 'i' :: 'z' :: 'e' :: []

/-- The `parser` attribute name. -/
def parserField : PyStr := 'p' :: 'a' :: 'r' :: 's' :: 'e' :: 'r' :: []

/-- The `layers` attribute name. -/
def layersField : PyStr := 'l' :: 'a' :: 'y' :: 'e' :: 'r' :: 's' :: []

/-- The message of `TypeError("ENC: Origin should be a tuple of size two")`. -/
def originErrMsg : PyStr :=
  ('E' :: 'N' :: 'C' :: ':' :: ' ' :: 'O' :: 'r' :: 'i' :: 'g' :: 'i' :: 'n' :: []) ++
  (' ' :: 's' :: 'h' :: 'o' :: 'u' :: 'l' :: 'd' :: ' ' :: 'b' :: 'e' :: []) ++
  (' ' :: 'a' :: ' ' :: 't' :: 'u' :: 'p' :: 'l' :: 'e' :: []) ++
  (' ' :: 'o' :: 'f' :: ' ' :: 's' :: 'i' :: 'z' :: 'e' :: ' ' :: 't' :: 'w' :: 'o' :: [])

/-- The message of `TypeError("ENC: Window size should be a tuple of size two")`. -/
def windowErrMsg : PyStr :=
  ('E' :: 'N' :: 'C' :: ':' :: ' ' :: 'W' :: 'i' :: 'n' :: 'd' :: 'o' :: 'w' :: []) ++
  (' ' :: 's' :: 'i' :: 'z' :: 'e' :: ' ' :: 's' :: 'h' :: 'o' :: 'u' :: 'l' :: 'd' :: []) ++
  (' ' :: 'b' :: 'e' :: ' ' :: 'a' :: ' ' :: 't' :: 'u' :: 'p' :: 'l' :: 'e' :: []) ++
  (' ' :: 'o' :: 'f' :: ' ' :: 's' :: 'i' :: 'z' :: 'e' :: ' ' :: 't' :: 'w' :: 'o' :: [])

/-- The observable outcome of running `ENC.__init__`:
* `assigned` — the `self.<field> = ...` assignments executed, in order;
* `parserCalls` — the bounding boxes passed to `Parser(...)`, in order;
* `updateCalls` — how many times `parser.update_charts_data` ran;
* `outcome` — the constructed object, or the exception raised. -/
structure InitTrace where
  assigned : List PyStr
  parserCalls : List (Int × Int × Int × Int)
  updateCalls : Nat
  outcome : Except PyErr SeaEnc
deriving DecidableEq, Repr

/-- `ENC.__init__` of `seacharts/seacharts.py`, lines 35-51:
validate `origin`, assign it; validate `window_size`, assign it; compute
`tr_corner = (i + j for i, j in zip(self.origin, self.window_size))` and
`bounding_box = *self.origin, *tr_corner`; construct the `Parser` with that
bounding box, update the chart data, and build the layer dictionary. -/
def encInit (origin window : PyArg) : InitTrace :=
  match origin with
  | .tuple (e :: n :: []) =>
    match window with
    | .tuple (w :: h :: []) =>
      { assigned := [originField, windowSizeField, parserField, layersField]
        parserCalls := [(e, n, e + w, n + h)]
        updateCalls := 1
        outcome := .ok { origin := (e, n), window_size := (w, h) } }
    | _ =>
      { assigned := [originField]
        parserCalls := []
        updateCalls := 0
        outcome := .error (.typeError windowErrMsg) }
  | _ =>
    { assigned := []
      parserCalls := []
      updateCalls := 0
      outcome := .error (.typeError originErrMsg) }

/-- `ENC.__getitem__`: `return self.layers[item.capitalize()]`; a missing
key raises `KeyError` carrying the key. -/
def encGetitem (item : PyStr) : Except PyErr Layer :=
  match dictLookup (pyCapitalize item) layersDict with
  | some l => .ok l
  | none => .error (.keyError (pyCapitalize item))

/-- The value of an attribute found by ordinary Python attribute lookup on a
constructed chart `ENC` (instance dict, then class namespace). -/
inductive AttrVal where
  | tup (p : Int × Int)
  | parserObj
  | layersObj
  | layerList
  | featureList
  | strVal (s : PyStr)
  | regionVal
  | methodObj (name : PyStr)
  | layer (l : Layer)
deriving DecidableEq, Repr

/-- The attributes found by ordinary lookup (before `__getattr__` fires):
the four instance attributes assigned in `__init__`, then the class-level
names of `seacharts/seacharts.py` (class attributes and properties). -/
def definedAttrs (e : SeaEnc) : List (PyStr × AttrVal) :=
  [(originField, .tup e.origin),
   (windowSizeField, .tup e.window_size),
   (parserField, .parserObj),
   (layersField, .layersObj),
   (('_' :: 'l' :: 'a' :: 'y' :: 'e' :: 'r' :: 's' :: []), .layerList),
   (('_' :: 'f' :: 'e' :: 'a' :: 't' :: 'u' :: 'r' :: 'e' :: 's' :: []), .featureList),
   (('d' :: 'e' :: 'f' :: 'a' :: 'u' :: 'l' :: 't' :: '_' :: []) ++ originField,
    .tup (38100, 6948700)),
   (('d' :: 'e' :: 'f' :: 'a' :: 'u' :: 'l' :: 't' :: '_' :: []) ++ windowSizeField,
    .tup (20000, 16000)),
   (('d' :: 'e' :: 'f' :: 'a' :: 'u' :: 'l' :: 't' :: '_' :: 'r' :: 'e' :: 'g' :: 'i' :: 'o' :: 'n' :: []),
    .regionVal),
   (('s' :: 'u' :: 'p' :: 'p' :: 'o' :: 'r' :: 't' :: 'e' :: 'd' :: '_' :: []) ++
    ('f' :: 'e' :: 'a' :: 't' :: 'u' :: 'r' :: 'e' :: 's' :: []),
    .strVal []),
   (('s' :: 'u' :: 'p' :: 'p' :: 'o' :: 'r' :: 't' :: 'e' :: 'd' :: '_' :: []) ++
    ('p' :: 'r' :: 'o' :: 'j' :: 'e' :: 'c' :: 't' :: 'i' :: 'o' :: 'n' :: []),
    .strVal [])]

/-- Python attribute access on a constructed chart `ENC`: ordinary lookup
first; on failure Python calls `__getattr__`, which is
`return self.__getitem__(item)` in `seacharts/seacharts.py`. -/
def encGetattr (e : SeaEnc) (item : PyStr) : Except PyErr AttrVal :=
  match dictLookup item (definedAttrs e) with
  | some v => .ok v
  | none => (encGetitem item).map .layer

/-- `s` is a letter-case variant of the (lowercase) word `t`: same length,
and at each position either the lowercase letter itself or its uppercase
counterpart. -/
def caseVariant : PyStr → PyStr → Bool
  | [], [] => true
  | c :: cs, d :: ds => (c == d || c == d.toUpper) && caseVariant cs ds
  | _, _ => false

/-- The lowercase name of the ocean layer. -/
def oceanStr : PyStr := 'o' :: 'c' :: 'e' :: 'a' :: 'n' :: []

/-- The lowercase name of the surface layer. -/
def surfaceStr : PyStr := 's' :: 'u' :: 'r' :: 'f' :: 'a' :: 'c' :: 'e' :: []

/-- The lowercase name of the details layer. -/
def detailsStr : PyStr := 'd' :: 'e' :: 't' :: 'a' :: 'i' :: 'l' :: 's' :: []

/-- All characters of the word are lowercase ASCII letters. -/
def lowerWord (t : PyStr) : Bool :=
  t.all fun c => decide (97 ≤ c.toNat) && decide (c.toNat ≤ 122)

/-- The lowercase spelling of each layer category name. -/
def lowerName : Layer → PyStr
  | .ocean => oceanStr
  | .surface => surfaceStr
  | .details => detailsStr

end Seacharts

namespace Simcharts

/-- The `local_traffic` dict: vessel identifier to vessel state.  The state
values are opaque payloads to this code, modelled as `Int`. -/
abbrev Traffic := List (Nat × Int)

/-- `ENC.updateLocalTraffic` of `simcharts/enc/enc.py`, lines 91-95: spin the
subscriber once, fetch `new_traffic`, and only if `new_traffic != {}` assign
`self.local_traffic = new_traffic`.  `current` is `self.local_traffic` before
the call and `fetched` is what `get_local_traffic()` returned. -/
def updateLocalTraffic (current fetched : Traffic) : Traffic :=
  if fetched ≠ [] then fetched else current

/-- Calls issued to the display object during the simulation. -/
inductive DisplayCall where
  | refreshVessels (t : Traffic)
  | updateStaticPlot
  | updateVesselsPlot
deriving DecidableEq, Repr

/-- The loop-carried state of `start_sim`: the traffic dict and the two
wall-clock samples `t_i` and `t_i_plus_1`.  Wall-clock timestamps are
modelled as integers. -/
structure LoopState where
  traffic : Traffic
  tI : Int
  tIp1 : Int
deriving DecidableEq, Repr

/-- The external environment of one loop iteration: what the traffic
subscriber would deliver, and the two wall-clock readings taken by the body
(`datetime.datetime.now().timestamp()` inside the `if`, and at the end). -/
structure LoopInput where
  fetched : Traffic
  tNow1 : Int
  tNow2 : Int
deriving DecidableEq, Repr

/-- One iteration of the `while True` body of `start_sim`
(`simcharts/enc/enc.py`, lines 117-128): spin once, update the vessel plot,
compute `delta_t = t_i_plus_1 - t_i`; when `delta_t >= sim_callback_time`
poll the traffic, and when the resulting dict is non-empty refresh the
vessel display and then set `self.local_traffic = {}`; finally take a fresh
`t_i_plus_1` sample.  Returns the next state and the display calls made. -/
def simLoopIter (cbTime : Int) (st : LoopState) (inp : LoopInput) :
    LoopState × List DisplayCall :=
  let dt := st.tIp1 - st.tI
  if dt ≥ cbTime then
    let t1 := updateLocalTraffic st.traffic inp.fetched
    if t1.length > 0 then
      ({ traffic := [], tI := inp.tNow1, tIp1 := inp.tNow2 },
       [.updateVesselsPlot, .refreshVessels t1])
    else
      ({ traffic := t1, tI := inp.tNow1, tIp1 := inp.tNow2 },
       [.updateVesselsPlot])
  else
    ({ traffic := st.traffic, tI := st.tI, tIp1 := inp.tNow2 },
     [.updateVesselsPlot])

/-- How a Python loop body can leave its loop.  The body of `start_sim`'s
`while True` loop contains no `break` and no `return`, so the embedded body
below never produces one of these. -/
inductive LoopExit where
  | brk
  | ret
deriving DecidableEq, Repr

/-- The guard of the loop: literally `while True`. -/
def loopGuard (_st : LoopState) : Bool := true

/-- The loop body with its control outcome: either an exit (`break` /
`return`) or the next state.  Translated from the source body, which has no
exit statement, so the result is always `Sum.inr`. -/
def simLoopBodyCtl (cbTime : Int) (st : LoopState) (inp : LoopInput) :
    LoopExit ⊕ (LoopState × List DisplayCall) :=
  .inr (simLoopIter cbTime st inp)

/-- How `fuel` bounded execution of the loop can end: still `running` when
the fuel ran out with the loop not yet finished, `guardEnded` when the guard
evaluated to false, or `exited e` when the body left the loop by `e`. -/
inductive LoopResult where
  | running
  | guardEnded
  | exited (e : LoopExit)
deriving DecidableEq, Repr

/-- Run the loop for at most `fuel` iterations, threading the input stream. -/
def simLoopRun (cbTime : Int) : Nat → LoopState → (Nat → LoopInput) →
    LoopResult × LoopState
  | 0, st, _ => (.running, st)
  | fuel + 1, st, ins =>
    if loopGuard st then
      match simLoopBodyCtl cbTime st (ins 0) with
      | .inl e => (.exited e, st)
      | .inr (st', _) => simLoopRun cbTime fuel st' (fun k => ins (k + 1))
    else
      (.guardEnded, st)

/-- The external environment of a whole `start_sim` call: the first
subscriber yield (for the `updateLocalTraffic` call before the loop), the
initial wall-clock samples, and the per-iteration loop inputs. -/
structure SimEnv where
  fetched0 : Traffic
  tStart : Int
  t1 : Int
  t2 : Int
  loopIns : Nat → LoopInput

/-- `ENC.start_sim` (`simcharts/enc/enc.py`, lines 101-128), run for at most
`fuel` loop iterations: store the executor, take the initial clock samples
(`t_i_plus_1` gets `now + 5000`), poll the traffic once, refresh the vessel
display with the held traffic, draw the static and vessel plots, then enter
the `while True` loop.  The `duration` parameter is part of the signature
(documented as a window pause duration) and is never read in the body. -/
def startSim (duration : Int) (cbTime : Int) (traffic0 : Traffic)
    (env : SimEnv) (fuel : Nat) :
    (LoopResult × LoopState) × List DisplayCall :=
  let tr1 := updateLocalTraffic traffic0 env.fetched0
  let preCalls := [DisplayCall.refreshVessels tr1, .updateStaticPlot,
                   .updateVesselsPlot]
  let st0 : LoopState := { traffic := tr1, tI := env.t1, tIp1 := env.t2 + 5000 }
  (simLoopRun cbTime fuel st0 env.loopIns, preCalls)

/-- A point message (`simcharts_interfaces.msg.Point`): fields `x`, `y`. -/
structure RosPoint where
  x : Int
  y : Int
deriving DecidableEq, Repr

/-- A polygon message (`simcharts_interfaces.msg.Polygon`): its single field
`polygon` is the list of point messages. -/
structure RosPolygon where
  polygon : List RosPoint
deriving DecidableEq, Repr

/-- A ring of a geometry in `__geo_interface__` form: a list of coordinate
pairs. -/
abbrev Ring := List (Int × Int)

/-- One polygon of the land geometry's `__geo_interface__['coordinates']`:
a list of rings, the first being the outer ring, the rest the holes. -/
abbrev GeoPolygon := List Ring

/-- The node clock reading. -/
structure ClockTime where
  sec : Int
  nanosec : Int
deriving DecidableEq, Repr

/-- The timestamp message placed in the service response. -/
structure Timestamp where
  sec : Int
  nanosec : Int
deriving DecidableEq, Repr

/-- Modelled from the spec: `getTimeStamp` lives in
`simcharts/utils/helper.py`, which is not part of the given sources; the
spec says the handler returns the obstacles "together with a timestamp
derived from the middleware's clock", so it is modelled as reading the
clock's current seconds and nanoseconds into a timestamp message. -/
def getTimeStamp (clock : ClockTime) : Timestamp :=
  { sec := clock.sec, nanosec := clock.nanosec }

/-- The `GetStaticObstacles` service response: fields `timestamp` and
`static_obstacles`. -/
structure StaticObstaclesResponse where
  timestamp : Timestamp
  static_obstacles : List RosPolygon
deriving DecidableEq, Repr

/-- The `for _pol in raw_obstacles` loop of
`ENC._get_static_obstacles_callback` (`simcharts/enc/enc.py`, lines
355-366): for each polygon take `pol = _pol[0]` (the outer ring — Python
indexing raises `IndexError` on an empty ring list), build one `Point`
message per coordinate pair `p` with `x = p[0]`, `y = p[1]`, and collect one
`Polygon` message per input polygon, in order. -/
def collectObstacles : List GeoPolygon → Except PyErr (List RosPolygon)
  | [] => .ok []
  | pol :: rest =>
    match pol with
    | [] => .error .indexError
    | ring :: _ =>
      match collectObstacles rest with
      | .ok tail => .ok ({ polygon := ring.map fun p => ⟨p.1, p.2⟩ } :: tail)
      | .error e => .error e

/-- `ENC._get_static_obstacles_callback` (`simcharts/enc/enc.py`, lines
347-371): walk `self.land.geometry.__geo_interface__['coordinates']`,
marshal the outer rings, set `response.timestamp = getTimeStamp(clock)` and
`response.static_obstacles = obstacles`, and return the response. -/
def getStaticObstaclesCallback (land : List GeoPolygon) (clock : ClockTime) :
    Except PyErr StaticObstaclesResponse :=
  match collectObstacles land with
  | .ok obstacles =>
    .ok { timestamp := getTimeStamp clock, static_obstacles := obstacles }
  | .error e => .error e

end Simcharts

/-! ### Character-level facts about `Char.toUpper` / `Char.toLower` -/

lemma char_toNat_inj {a b : Char} (h : a.toNat = b.toNat) : a = b := by
  have ha := Char.ofNat_toNat a
  rw [h, Char.ofNat_toNat] at ha
  exact ha.symm

lemma char_toNat_ofNat {n : Nat} (h : n < 55296) : (Char.ofNat n).toNat = n := by
  rw [Char.ofNat, dif_pos (Or.inl h)]
  rfl

lemma toUpper_eq_inv {c u : Char} (h : c.toUpper = u) :
    c = u ∨ c.toNat = u.toNat + 32 := by
  unfold Char.toUpper at h
  dsimp only at h
  split at h
  · right
    rename_i hc
    have hlt : c.toNat - 32 < 55296 := by omega
    have hn := congrArg Char.toNat h
    rw [char_toNat_ofNat hlt] at hn
    omega
  · left; exact h

lemma toLower_eq_inv {c l : Char} (h : c.toLower = l) :
    c = l ∨ c.toNat + 32 = l.toNat := by
  unfold Char.toLower at h
  dsimp only at h
  split at h
  · right
    rename_i hc
    have hlt : c.toNat + 32 < 55296 := by omega
    have hn := congrArg Char.toNat h
    rw [char_toNat_ofNat hlt] at hn
    omega
  · left; exact h

lemma toUpper_toNat_of_lower {c : Char} (h1 : 97 ≤ c.toNat) (h2 : c.toNat ≤ 122) :
    c.toUpper.toNat = c.toNat - 32 := by
  unfold Char.toUpper
  dsimp only
  rw [if_pos ⟨h1, h2⟩]
  exact char_toNat_ofNat (by omega)

lemma toLower_of_lower {c : Char} (h1 : 97 ≤ c.toNat) : c.toLower = c := by
  unfold Char.toLower
  dsimp only
  rw [if_neg]
  omega

lemma toUpper_of_upper {c : Char} (h2 : c.toNat ≤ 90) : c.toUpper = c := by
  unfold Char.toUpper
  dsimp only
  rw [if_neg]
  omega

lemma toLower_toUpper_of_lower {c : Char} (h1 : 97 ≤ c.toNat) (h2 : c.toNat ≤ 122) :
    c.toUpper.toLower = c := by
  have hu := toUpper_toNat_of_lower h1 h2
  unfold Char.toLower
  dsimp only
  rw [if_pos (by omega)]
  apply char_toNat_inj
  rw [char_toNat_ofNat (by omega)]
  omega

/-! ### `pyCapitalize` versus `caseVariant` -/

namespace Seacharts

lemma map_toLower_of_caseVariant :
    ∀ t s : PyStr, lowerWord t = true → caseVariant s t = true →
      s.map Char.toLower = t.map Char.toLower := by
  intro t
  induction t with
  | nil =>
    intro s _ hv
    cases s with
    | nil => rfl
    | cons c cs => simp [caseVariant] at hv
  | cons d ds ih =>
    intro s hw hv
    cases s with
    | nil => simp [caseVariant] at hv
    | cons c cs =>
      simp only [caseVariant, Bool.and_eq_true, Bool.or_eq_true, beq_iff_eq] at hv
      simp only [lowerWord, List.all_cons, Bool.and_eq_true, decide_eq_true_eq] at hw
      have htail := ih cs (by simpa [lowerWord] using hw.2) hv.2
      simp only [List.map_cons, htail]
      rcases hv.1 with rfl | rfl
      · rfl
      · rw [toLower_toUpper_of_lower hw.1.1 hw.1.2, toLower_of_lower hw.1.1]

lemma caseVariant_of_map_toLower :
    ∀ t s : PyStr, lowerWord t = true →
      s.map Char.toLower = t.map Char.toLower → caseVariant s t = true := by
  intro t
  induction t with
  | nil =>
    intro s _ hm
    cases s with
    | nil => rfl
    | cons c cs => simp at hm
  | cons d ds ih =>
    intro s hw hm
    cases s with
    | nil => simp at hm
    | cons c cs =>
      simp only [List.map_cons, List.cons.injEq] at hm
      simp only [lowerWord, List.all_cons, Bool.and_eq_true, decide_eq_true_eq] at hw
      have hd : c.toLower = d := by
        rw [hm.1, toLower_of_lower hw.1.1]
      have hc : c = d ∨ c = d.toUpper := by
        rcases toLower_eq_inv hd with h | h
        · left; exact h
        · right
          apply char_toNat_inj
          rw [toUpper_toNat_of_lower hw.1.1 hw.1.2]
          omega
      simp only [caseVariant, Bool.and_eq_true, Bool.or_eq_true, beq_iff_eq]
      exact ⟨hc, ih cs (by simpa [lowerWord] using hw.2) hm.2⟩

lemma pyCapitalize_of_caseVariant {t s : PyStr} (hw : lowerWord t = true)
    (hv : caseVariant s t = true) : pyCapitalize s = pyCapitalize t := by
  cases t with
  | nil =>
    cases s with
    | nil => rfl
    | cons c cs => simp [caseVariant] at hv
  | cons d ds =>
    cases s with
    | nil => simp [caseVariant] at hv
    | cons c cs =>
      simp only [caseVariant, Bool.and_eq_true, Bool.or_eq_true, beq_iff_eq] at hv
      simp only [lowerWord, List.all_cons, Bool.and_eq_true, decide_eq_true_eq] at hw
      have htail := map_toLower_of_caseVariant ds cs
        (by simpa [lowerWord] using hw.2) hv.2
      simp only [pyCapitalize, htail]
      rcases hv.1 with rfl | rfl
      · rfl
      · rw [toUpper_of_upper]
        rw [toUpper_toNat_of_lower hw.1.1 hw.1.2]
        omega

lemma caseVariant_of_pyCapitalize {t s : PyStr} (hw : lowerWord t = true)
    (hm : pyCapitalize s = pyCapitalize t) : caseVariant s t = true := by
  cases t with
  | nil =>
    cases s with
    | nil => rfl
    | cons c cs => simp [pyCapitalize] at hm
  | cons d ds =>
    cases s with
    | nil => simp [pyCapitalize] at hm
    | cons c cs =>
      simp only [pyCapitalize, List.cons.injEq] at hm
      simp only [lowerWord, List.all_cons, Bool.and_eq_true, decide_eq_true_eq] at hw
      have hc : c = d ∨ c = d.toUpper := by
        rcases toUpper_eq_inv hm.1 with h | h
        · right; exact h
        · left
          apply char_toNat_inj
          rw [toUpper_toNat_of_lower hw.1.1 hw.1.2] at h
          omega
      simp only [caseVariant, Bool.and_eq_true, Bool.or_eq_true, beq_iff_eq]
      refine ⟨hc, caseVariant_of_map_toLower ds cs
        (by simpa [lowerWord] using hw.2) hm.2⟩

lemma lowerWord_lowerName (l : Layer) : lowerWord (lowerName l) = true := by
  cases l <;> decide

lemma pyCapitalize_lowerName (l : Layer) :
    pyCapitalize (lowerName l) = layerName l := by
  cases l <;> decide

lemma layersDict_lookup (l : Layer) :
    dictLookup (layerName l) layersDict = some l := by
  cases l <;> decide

end Seacharts

lemma dictLookup_none_of_ne {β : Type} (s : PyStr) :
    ∀ L : List (PyStr × β), (∀ kv ∈ L, s ≠ kv.1) → dictLookup s L = none := by
  intro L
  induction L with
  | nil => intro _; rfl
  | cons kv rest ih =>
    intro h
    obtain ⟨k, v⟩ := kv
    have hne := h (k, v) (List.mem_cons_self _ _)
    simp only [dictLookup]
    rw [if_neg hne]
    exact ih fun q hq => h q (List.mem_cons_of_mem _ hq)

namespace Seacharts

lemma definedAttrs_lookup_none (e : SeaEnc) (s : PyStr)
    (h : caseVariant s oceanStr = true ∨ caseVariant s surfaceStr = true ∨
      caseVariant s detailsStr = true) :
    dictLookup s (definedAttrs e) = none := by
  apply dictLookup_none_of_ne
  intro kv hkv
  simp only [definedAttrs, List.mem_cons, List.not_mem_nil, or_false] at hkv
  rcases hkv with rfl | rfl | rfl | rfl | rfl | rfl | rfl | rfl | rfl | rfl | rfl <;>
    (intro heq; rcases h with h | h | h <;>
      (rw [heq] at h; dsimp only at h; revert h; decide))

end Seacharts

namespace Simcharts

lemma updateLocalTraffic_empty {cur f : Traffic}
    (h : updateLocalTraffic cur f = []) : cur = [] := by
  unfold updateLocalTraffic at h
  split at h
  · rename_i hf; exact absurd h hf
  · exact h

lemma simLoopRun_running (cbTime : Int) :
    ∀ (fuel : Nat) (st : LoopState) (ins : Nat → LoopInput),
      (simLoopRun cbTime fuel st ins).1 = .running := by
  intro fuel
  induction fuel with
  | zero => intro st ins; rfl
  | succ n ih =>
    intro st ins
    simp only [simLoopRun, loopGuard, simLoopBodyCtl, if_true]
    exact ih _ _

lemma collectObstacles_ok :
    ∀ land : List GeoPolygon, (∀ pol ∈ land, pol ≠ []) →
      collectObstacles land =
        .ok (land.map fun pol =>
          { polygon := (pol.headD []).map fun p => ⟨p.1, p.2⟩ }) := by
  intro land
  induction land with
  | nil => intro _; rfl
  | cons pol rest ih =>
    intro h
    have hpol := h pol (List.mem_cons_self _ _)
    cases pol with
    | nil => exact absurd rfl hpol
    | cons ring rs =>
      have htail := ih fun q hq => h q (List.mem_cons_of_mem _ hq)
      simp only [collectObstacles, htail, List.map_cons, List.headD_cons]

lemma getD_map_lt {α β : Type} (f : α → β) (d : β) (d0 : α) :
    ∀ (l : List α) (i : Nat), i < l.length →
      (l.map f).getD i d = f (l.getD i d0) := by
  intro l
  induction l with
  | nil => intro i hi; simp at hi
  | cons a t ih =>
    intro i hi
    cases i with
    | zero => rfl
    | succ j => exact ih j (by simpa using hi)

end Simcharts

/-! ### The claims -/

open Seacharts Simcharts

/-- C1: for a land geometry of `n` polygons, one call of the static-obstacle
service handler returns a response with exactly `n` polygon messages; the
`i`-th output polygon's point sequence is the coordinate pairs of the `i`-th
input polygon's outer (first) ring in order, all inner rings are discarded,
and the response timestamp is derived from the node's clock.  (Each polygon
must have at least one ring, as `__geo_interface__` polygons always do:
`_pol[0]` would raise `IndexError` otherwise.) -/
theorem claim_C1 (land : List GeoPolygon) (clock : ClockTime)
    (hne : ∀ pol ∈ land, pol ≠ []) :
    ∃ resp, getStaticObstaclesCallback land clock = .ok resp ∧
      resp.static_obstacles.length = land.length ∧
      (∀ i, i < land.length →
        (resp.static_obstacles.getD i { polygon := [] }).polygon =
          ((land.getD i []).headD []).map fun p => ⟨p.1, p.2⟩) ∧
      resp.timestamp = getTimeStamp clock := by
  refine ⟨{ timestamp := getTimeStamp clock,
            static_obstacles := land.map fun pol =>
              { polygon := (pol.headD []).map fun p => ⟨p.1, p.2⟩ } },
          ?_, by simp, ?_, rfl⟩
  · unfold getStaticObstaclesCallback
    rw [collectObstacles_ok land hne]
  · intro i hi
    have := getD_map_lt
      (fun pol : GeoPolygon =>
        ({ polygon := (pol.headD []).map fun p => ⟨p.1, p.2⟩ } : RosPolygon))
      { polygon := [] } [] land i hi
    simp only [this]

/-- Witness for C1 at a concrete two-polygon geometry (the second polygon
has an inner ring, which is discarded). -/
theorem claim_C1_witness :
    ∃ resp,
      getStaticObstaclesCallback
        [[[(0, 0), (4, 0), (4, 4)]], [[(7, 7), (8, 7)], [(9, 9), (8, 8)]]]
        { sec := 5, nanosec := 7 } = .ok resp ∧
      resp.static_obstacles.length =
        ([[[(0, 0), (4, 0), (4, 4)]],
          [[(7, 7), (8, 7)], [(9, 9), (8, 8)]]] : List GeoPolygon).length ∧
      (∀ i, i < ([[[(0, 0), (4, 0), (4, 4)]],
          [[(7, 7), (8, 7)], [(9, 9), (8, 8)]]] : List GeoPolygon).length →
        (resp.static_obstacles.getD i { polygon := [] }).polygon =
          ((([[[(0, 0), (4, 0), (4, 4)]],
              [[(7, 7), (8, 7)], [(9, 9), (8, 8)]]] :
                List GeoPolygon).getD i []).headD []).map
            fun p => ⟨p.1, p.2⟩) ∧
      resp.timestamp = getTimeStamp { sec := 5, nanosec := 7 } :=
  claim_C1 _ _ (by decide)

/-- C2: for every two-element origin tuple `(e, n)` and two-element
window-size tuple `(w, h)` accepted by the chart `ENC` constructor, the
bounding box passed to the external parser is `(e, n, e + w, n + h)`, it is
passed exactly once (computed once at construction), and construction
succeeds with the origin and window size stored. -/
theorem claim_C2 (e n w h : Int) :
    (encInit (.tuple [e, n]) (.tuple [w, h])).parserCalls
        = [(e, n, e + w, n + h)] ∧
    (encInit (.tuple [e, n]) (.tuple [w, h])).outcome
        = .ok { origin := (e, n), window_size := (w, h) } :=
  ⟨rfl, rfl⟩

/-- C3: `updateLocalTraffic` keeps the held mapping unchanged when the
subscriber yields the empty mapping, and replaces it wholesale when the
subscriber yields a non-empty mapping. -/
theorem claim_C3 (current fetched : Traffic) :
    (fetched = [] → updateLocalTraffic current fetched = current) ∧
    (fetched ≠ [] → updateLocalTraffic current fetched = fetched) := by
  constructor
  · intro h; simp [updateLocalTraffic, h]
  · intro h; simp [updateLocalTraffic, h]

/-- Witness for C3 at concrete mappings. -/
theorem claim_C3_witness :
    updateLocalTraffic [(1, 5)] [] = [(1, 5)] ∧
    updateLocalTraffic [(1, 5)] [(2, 7)] = [(2, 7)] :=
  ⟨(claim_C3 [(1, 5)] []).1 rfl, (claim_C3 [(1, 5)] [(2, 7)]).2 (by decide)⟩

/-- C5: the chart `ENC` constructor raises `TypeError` exactly when the
origin or the window size is not a two-element tuple, and in that case it
raises before the parser is constructed (`parserCalls = []`) and before any
chart data is parsed (`updateCalls = 0`); for well-formed arguments this
code raises no error itself. -/
theorem claim_C5 (o w : PyArg) :
    ((isTuple2 o = false ∨ isTuple2 w = false) →
        ∃ m, (encInit o w).outcome = .error (.typeError m) ∧
          (encInit o w).parserCalls = [] ∧ (encInit o w).updateCalls = 0) ∧
    (isTuple2 o = true → isTuple2 w = true →
        ∃ st, (encInit o w).outcome = .ok st) := by
  rcases o with ⟨_ | ⟨a, _ | ⟨b, _ | ⟨a3, t⟩⟩⟩⟩ | _ <;>
    rcases w with ⟨_ | ⟨c, _ | ⟨d, _ | ⟨c3, u⟩⟩⟩⟩ | _ <;>
    refine ⟨fun h => ?_, fun h1 h2 => ?_⟩ <;>
    first
      | exact ⟨originErrMsg, rfl, rfl, rfl⟩
      | exact ⟨windowErrMsg, rfl, rfl, rfl⟩
      | exact ⟨_, rfl⟩
      | (simp only [isTuple2, List.length_cons, List.length_nil, beq_iff_eq,
          beq_eq_false_iff_ne, Bool.false_eq_true] at h1 <;> omega)
      | (simp only [isTuple2, List.length_cons, List.length_nil, beq_iff_eq,
          beq_eq_false_iff_ne, Bool.false_eq_true] at h2 <;> omega)
      | (rcases h with h | h <;>
          simp only [isTuple2, List.length_cons, List.length_nil, beq_iff_eq,
            beq_eq_false_iff_ne, Bool.false_eq_true] at h <;> omega)

/-- Witness for C5: a malformed origin fails with no parser activity, and a
well-formed pair of tuples constructs successfully. -/
theorem claim_C5_witness :
    (∃ m, (encInit .nonTuple (.tuple [1, 2])).outcome = .error (.typeError m) ∧
      (encInit .nonTuple (.tuple [1, 2])).parserCalls = [] ∧
      (encInit .nonTuple (.tuple [1, 2])).updateCalls = 0) ∧
    (∃ st, (encInit (.tuple [1, 2]) (.tuple [3, 4])).outcome = .ok st) :=
  ⟨(claim_C5 .nonTuple (.tuple [1, 2])).1 (Or.inl rfl),
   (claim_C5 (.tuple [1, 2]) (.tuple [3, 4])).2 rfl rfl⟩

/-- C6 counterexample: the claim says a failed construction leaves no field
assigned, but with a valid origin and a malformed window size the
constructor has already executed `self.origin = origin` when it raises, so
the `origin` field is assigned on the object. -/
theorem claim_C6_counterexample :
    (encInit (.tuple [1, 2]) (.tuple [3])).outcome
        = .error (.typeError windowErrMsg) ∧
    (encInit (.tuple [1, 2]) (.tuple [3])).assigned = [originField] ∧
    (encInit (.tuple [1, 2]) (.tuple [3])).assigned ≠ [] :=
  ⟨rfl, rfl, by decide⟩

/-- C6 (amended): when the constructor raises for a malformed origin no
field has been assigned; when it raises for a malformed window size exactly
the `origin` field has been assigned. -/
theorem claim_C6_amended (o w : PyArg) :
    (isTuple2 o = false → (encInit o w).assigned = []) ∧
    (isTuple2 o = true → isTuple2 w = false →
      (encInit o w).assigned = [originField]) := by
  rcases o with ⟨_ | ⟨a, _ | ⟨b, _ | ⟨a3, t⟩⟩⟩⟩ | _ <;>
    rcases w with ⟨_ | ⟨c, _ | ⟨d, _ | ⟨c3, u⟩⟩⟩⟩ | _ <;>
    refine ⟨fun h => ?_, fun h1 h2 => ?_⟩ <;>
    first
      | rfl
      | (simp only [isTuple2, List.length_cons, List.length_nil, beq_iff_eq,
          beq_eq_false_iff_ne, Bool.false_eq_true] at h <;> omega)
      | (simp only [isTuple2, List.length_cons, List.length_nil, beq_iff_eq,
          beq_eq_false_iff_ne, Bool.false_eq_true] at h1 <;> omega)
      | (simp only [isTuple2, List.length_cons, List.length_nil, beq_iff_eq,
          beq_eq_false_iff_ne, Bool.false_eq_true] at h2 <;> omega)

/-- Witness for the amended C6 at concrete malformed arguments. -/
theorem claim_C6_witness :
    (encInit .nonTuple (.tuple [1, 2])).assigned = [] ∧
    (encInit (.tuple [1, 2]) (.tuple [3])).assigned = [originField] :=
  ⟨(claim_C6_amended .nonTuple (.tuple [1, 2])).1 rfl,
   (claim_C6_amended (.tuple [1, 2]) (.tuple [3])).2 rfl rfl⟩

/-- C7 counterexample: the claim says the held traffic mapping changes only
by wholesale replacement with a non-empty subscriber update, but one loop
iteration that receives the non-empty update `[(2, 7)]` while holding
`[(1, 5)]` ends with the mapping set to `{}` — a value that did not arrive
as a non-empty update (line 126 of `simcharts/enc/enc.py`). -/
theorem claim_C7_counterexample :
    ¬ (((simLoopIter 0 { traffic := [(1, 5)], tI := 0, tIp1 := 0 }
            { fetched := [(2, 7)], tNow1 := 1, tNow2 := 2 }).1.traffic
          = [(1, 5)]) ∨
       ((simLoopIter 0 { traffic := [(1, 5)], tI := 0, tIp1 := 0 }
            { fetched := [(2, 7)], tNow1 := 1, tNow2 := 2 }).1.traffic
          = [(2, 7)] ∧ ([(2, 7)] : Traffic) ≠ [])) := by
  decide

/-- C7 (amended): across one iteration of the `start_sim` loop the held
traffic mapping either is unchanged, or — after the display has been
refreshed with the non-empty wholesale-updated mapping — is cleared to the
empty mapping. -/
theorem claim_C7_amended (cbTime : Int) (st : LoopState) (inp : LoopInput) :
    (simLoopIter cbTime st inp).1.traffic = st.traffic ∨
    ((simLoopIter cbTime st inp).1.traffic = [] ∧
     updateLocalTraffic st.traffic inp.fetched ≠ [] ∧
     (simLoopIter cbTime st inp).2 =
       [.updateVesselsPlot,
        .refreshVessels (updateLocalTraffic st.traffic inp.fetched)]) := by
  unfold simLoopIter
  dsimp only
  split
  · split
    · rename_i hlen
      right
      refine ⟨rfl, ?_, rfl⟩
      intro hnil
      rw [hnil] at hlen
      simp at hlen
    · rename_i hlen
      left
      have ht1 : updateLocalTraffic st.traffic inp.fetched = [] := by
        cases hemp : updateLocalTraffic st.traffic inp.fetched with
        | nil => rfl
        | cons a l => rw [hemp] at hlen; simp at hlen
      show updateLocalTraffic st.traffic inp.fetched = st.traffic
      rw [ht1, (updateLocalTraffic_empty ht1)]
  · left; rfl

/-- C8: the `while True` loop of `start_sim` has a constantly-true guard and
a body with no `break` or `return`, so after any number of iterations the
loop is still running: `start_sim` never returns normally. -/
theorem claim_C8 (duration cbTime : Int) (traffic0 : Traffic) (env : SimEnv)
    (fuel : Nat) :
    ((startSim duration cbTime traffic0 env fuel).1).1 = .running := by
  unfold startSim
  exact simLoopRun_running cbTime fuel _ _

/-- C9: the behaviour of `start_sim` is independent of its `duration`
argument — the parameter is never read in the body, so two executions with
different durations but equal everything else are identical. -/
theorem claim_C9 (d1 d2 cbTime : Int) (traffic0 : Traffic) (env : SimEnv)
    (fuel : Nat) :
    startSim d1 cbTime traffic0 env fuel = startSim d2 cbTime traffic0 env fuel :=
  rfl

/-- C4: indexing the chart `ENC` with any letter-case variant of `ocean`,
`surface` or `details` — and likewise attribute access with such a string —
returns the layer of the corresponding category, independently of case; for
every string that is not a case variant of one of the three category names
the lookup fails with a `KeyError` carrying the capitalized key. -/
theorem claim_C4 (s : PyStr) :
    (∀ l : Layer, caseVariant s (lowerName l) = true →
        encGetitem s = .ok l ∧
        ∀ e : SeaEnc, encGetattr e s = .ok (.layer l)) ∧
    (caseVariant s oceanStr = false → caseVariant s surfaceStr = false →
     caseVariant s detailsStr = false →
        encGetitem s = .error (.keyError (pyCapitalize s))) := by
  constructor
  · intro l hv
    have hcap : pyCapitalize s = layerName l := by
      rw [pyCapitalize_of_caseVariant (lowerWord_lowerName l) hv,
        pyCapitalize_lowerName l]
    have hget : encGetitem s = .ok l := by
      unfold encGetitem
      rw [hcap, layersDict_lookup l]
    refine ⟨hget, fun e => ?_⟩
    have hvar : caseVariant s oceanStr = true ∨ caseVariant s surfaceStr = true ∨
        caseVariant s detailsStr = true := by
      cases l
      · exact Or.inl hv
      · exact Or.inr (Or.inl hv)
      · exact Or.inr (Or.inr hv)
    unfold encGetattr
    rw [definedAttrs_lookup_none e s hvar, hget]
    rfl
  · intro h1 h2 h3
    have hnl : ∀ l : Layer, pyCapitalize s ≠ layerName l := by
      intro l heq
      have hv := caseVariant_of_pyCapitalize (lowerWord_lowerName l)
        (by rw [heq, pyCapitalize_lowerName l])
      cases l <;> dsimp only [lowerName] at hv <;> simp_all
    have hnone : dictLookup (pyCapitalize s) layersDict = none := by
      apply dictLookup_none_of_ne
      intro kv hkv
      simp only [layersDict, List.mem_cons, List.not_mem_nil, or_false] at hkv
      rcases hkv with rfl | rfl | rfl
      · exact hnl .ocean
      · exact hnl .surface
      · exact hnl .details
    unfold encGetitem
    rw [hnone]

/-- Witness for C4: the mixed-case string `oCeAn` retrieves the ocean layer
both by indexing and by attribute access, and `foo` fails with a key
error. -/
theorem claim_C4_witness :
    encGetitem ('o' :: 'C' :: 'e' :: 'A' :: 'n' :: []) = .ok .ocean ∧
    encGetattr { origin := (1, 2), window_size := (3, 4) }
      ('o' :: 'C' :: 'e' :: 'A' :: 'n' :: []) = .ok (.layer .ocean) ∧
    encGetitem ('f' :: 'o' :: 'o' :: []) =
      .error (.keyError (pyCapitalize ('f' :: 'o' :: 'o' :: []))) :=
  ⟨((claim_C4 ('o' :: 'C' :: 'e' :: 'A' :: 'n' :: [])).1 .ocean (by decide)).1,
   ((claim_C4 ('o' :: 'C' :: 'e' :: 'A' :: 'n' :: [])).1 .ocean (by decide)).2
     { origin := (1, 2), window_size := (3, 4) },
   (claim_C4 ('f' :: 'o' :: 'o' :: [])).2 (by decide) (by decide) (by decide)⟩

/-- C10: for every attribute name not otherwise defined on the chart `ENC`
object, attribute access delegates through `__getattr__` to the
capitalizing dictionary lookup of `__getitem__`, so an unknown attribute
raises a `KeyError` (a lookup error) and never an `AttributeError`. -/
theorem claim_C10 (e : SeaEnc) (s : PyStr)
    (h : dictLookup s (definedAttrs e) = none) :
    encGetattr e s = (encGetitem s).map AttrVal.layer ∧
    (dictLookup (pyCapitalize s) layersDict = none →
      encGetattr e s = .error (.keyError (pyCapitalize s))) ∧
    ∀ m, encGetattr e s ≠ .error (.attributeError m) := by
  have h1 : encGetattr e s = (encGetitem s).map AttrVal.layer := by
    unfold encGetattr
    rw [h]
  refine ⟨h1, fun hn => ?_, fun m => ?_⟩
  · rw [h1]
    unfold encGetitem
    rw [hn]
    rfl
  · rw [h1]
    unfold encGetitem
    cases dictLookup (pyCapitalize s) layersDict <;> simp [Except.map]

/-- Witness for C10: the unknown attribute `foo` on a concrete object fails
with a `KeyError`, not an `AttributeError`. -/
theorem claim_C10_witness :
    encGetattr { origin := (1, 2), window_size := (3, 4) }
        ('f' :: 'o' :: 'o' :: []) =
      .error (.keyError (pyCapitalize ('f' :: 'o' :: 'o' :: []))) ∧
    encGetattr { origin := (1, 2), window_size := (3, 4) }
        ('f' :: 'o' :: 'o' :: []) ≠ .error (.attributeError []) :=
  ⟨(claim_C10 { origin := (1, 2), window_size := (3, 4) }
      ('f' :: 'o' :: 'o' :: []) (by decide)).2.1 (by decide),
   (claim_C10 { origin := (1, 2), window_size := (3, 4) }
      ('f' :: 'o' :: 'o' :: []) (by decide)).2.2 []⟩
